import Mathlib

/-!
# VRF lottery scaffold: shallow embedding and verification

This file embeds the core protocol of the repository in Lean 4 and proves the
frozen specification claims against it.

Source of truth (the repository ships several near-duplicate renditions of the
same contract):

* `packages/solidity/contracts/VrfConsumer.sol` — the lottery controller
  (`VrfConsumer`): participation, interval-gated randomness requests, the
  oracle fulfillment callback, winner selection and reward minting.
* `packages/solidity/contracts/ERC20Example.sol` — the reward ledger
  (`ERC20Example`): capped ERC20 with a single authorized minter next to the
  owner.
* `src/unnamed/part_005` — an alternative rendition of `VrfConsumer` whose
  `requestRandomWords` special-cases `lastRequestTimestamp == 0` and whose
  `getExtraArgsForNativePayment` pads the payload to 64 bytes.

Modelling conventions:

* `uint256` values are `Nat`; Solidity 0.8 checked arithmetic is modelled
  explicitly: an addition or multiplication that would reach `2 ^ 256`
  produces the `Overflow` error (an arithmetic panic in the EVM).
* Addresses are `Nat`; `0` is `address(0)`.
* Storage mappings are functions `Nat → Nat` / `Nat → Bool` with pointwise
  update, default value `0` / `false` as on the EVM.
* A contract call is a function from the pre-state (plus `msg.sender`,
  `msg.value`, `block.timestamp` as needed) to `Except EvmError` of the
  post-state.  Returning `.error e` models a full transaction revert: the
  caller observes the error and **no** state change, exactly the EVM's revert
  semantics, so "fails with e and leaves all state unchanged" is expressed by
  the call evaluating to `.error e`.
* The VRF wrapper (oracle) is modelled as the repository's
  `MockVRFV2PlusWrapper`: a deployed, funded wrapper that quotes a price and
  hands out the next request id; the external call in `requestRandomWords`
  therefore succeeds once the contract-side checks pass.
* Reentrancy (the `nonReentrant` modifiers) is outside the single-call
  transition semantics modelled here; every theorem is about one top-level
  call with the guard not taken.
-/

/-- First natural number that does not fit in a `uint256`. -/
def U256lim : Nat := 2 ^ 256

/-- Pointwise update of a `uint256 → uint256` storage mapping. -/
def setMap (m : Nat → Nat) (k v : Nat) : Nat → Nat :=
  fun x => if x = k then v else m x

/-- Pointwise update of a `uint256 → bool` storage mapping. -/
def setBoolMap (m : Nat → Bool) (k : Nat) (v : Bool) : Nat → Bool :=
  fun x => if x = k then v else m x

/-- Revert reasons of the embedded contracts.  Each constructor corresponds to
a `require` message, custom error or arithmetic panic in the Solidity sources;
the spec's error taxonomy maps onto them (`UnauthorizedOracleCaller` ↦
`OnlyVRFWrapperCanFulfill`, `RequestNotFound` ↦ "Request not found",
`Unauthorized` ↦ "ERC20Example: unauthorized minter", `CapExceeded` ↦
"ERC20Example: cap exceeded", `TokenNotConfigured` ↦ "Token not set",
`TooSoonToDraw` ↦ "Too soon to resolve lottery", and so on). -/
inductive EvmError where
  /-- custom error `OnlyVRFWrapperCanFulfill(address have, address want)` -/
  | OnlyVRFWrapperCanFulfill (haveAddr wantAddr : Nat)
  /-- `require(paidAmount > 0, "Request not found")` -/
  | RequestNotFound
  /-- `require(acceptingParticipants, "Not accepting participants")` -/
  | NotAcceptingParticipants
  /-- `require(participants[i] != msgSender, "Already participating")` -/
  | AlreadyParticipating
  /-- `require(lotteryEntryFee > 0, "Fee not set")` -/
  | FeeNotConfigured
  /-- `require(msg.value == lotteryEntryFee, "Wrong amount")` -/
  | WrongAmount
  /-- `require(block.timestamp >= lastRequestTimestamp + intervalSecs, "Too soon to resolve lottery")` -/
  | TooSoonToDraw
  /-- `require(erc20TokenAddress != address(0), "Token not set")` -/
  | TokenNotConfigured
  /-- `require(caller == tokenOwner || ..., "ERC20Example: unauthorized minter")` -/
  | UnauthorizedMinter
  /-- `require(newSupply <= maxSupply, "ERC20Example: cap exceeded")` -/
  | CapExceeded
  /-- `onlyOwner` modifier rejection (`OwnableUnauthorizedAccount`) -/
  | NotOwner
  /-- OpenZeppelin `ERC20._mint` zero-address receiver revert
  (`ERC20InvalidReceiver(address(0))`) -/
  | InvalidReceiver
  /-- Solidity 0.8 checked-arithmetic panic (overflow) -/
  | Overflow
  deriving DecidableEq, Repr

/-- Storage of `VrfConsumer` (`packages/solidity/contracts/VrfConsumer.sol`),
field per field, plus the `Ownable` owner slot. -/
structure VrfState where
  ownerAddr : Nat
  iVrfV2PlusWrapper : Nat
  lastFulfilledId : Nat
  lastFulfilledValue : Nat
  lastWinner : Nat
  sRequestsPaid : Nat → Nat
  sRequestsValue : Nat → Nat
  sRequestsFulfilled : Nat → Bool
  requestIds : List Nat
  lastRequestId : Nat
  callbackGasLimit : Nat
  requestConfirmations : Nat
  numWords : Nat
  acceptingParticipants : Bool
  lotteryIntervalHours : Nat
  lastRequestTimestamp : Nat
  erc20TokenAddress : Nat
  participants : List Nat
  lotteryEntryFee : Nat

/-- Storage of `ERC20Example` (`packages/solidity/contracts/ERC20Example.sol`):
the `Ownable` owner, the extra `authorizedMinter` slot, and the
`ERC20Capped`/`ERC20` supply bookkeeping. -/
structure Erc20State where
  ownerAddr : Nat
  authorizedMinter : Nat
  cap : Nat
  totalSupply : Nat
  balances : Nat → Nat

/-- The two cooperating contracts plus the lottery contract's own address
(the `msg.sender` the ledger sees when the lottery calls `mint`).  The ledger
deployed at `vrf.erc20TokenAddress` is `token`. -/
structure World where
  vrf : VrfState
  token : Erc20State
  vrfAddr : Nat

/-- The repository's mock oracle (`MockVRFV2PlusWrapper`): a quoted request
price and the next request id it will assign. -/
structure OracleModel where
  price : Nat
  nextRequestId : Nat

/-- `VrfConsumer` constructor (`VrfConsumer.sol` lines 80–91). -/
def mkVrfConsumer (vrfV2PlusWrapper owner : Nat) : VrfState :=
  { ownerAddr := owner
    iVrfV2PlusWrapper := vrfV2PlusWrapper
    lastFulfilledId := 0
    lastFulfilledValue := 0
    lastWinner := 0
    sRequestsPaid := fun _ => 0
    sRequestsValue := fun _ => 0
    sRequestsFulfilled := fun _ => false
    requestIds := []
    lastRequestId := 0
    callbackGasLimit := 100000
    requestConfirmations := 3
    numWords := 1
    acceptingParticipants := true
    lotteryIntervalHours := 4
    lastRequestTimestamp := 0
    erc20TokenAddress := 0
    participants := []
    lotteryEntryFee := 500000 }

/-- `ERC20Example.mint` (`ERC20Example.sol` lines 43–59): authorization
(owner, or a configured `authorizedMinter`), then the cap check
`totalSupply() + value <= cap()` (whose addition is checked arithmetic),
then `_mint`.  The inherited OpenZeppelin `ERC20._mint` first reverts with
`ERC20InvalidReceiver(address(0))` on a zero recipient, then `_update`
credits the balance and supply (its own `ERC20Capped` re-check is already
satisfied by the explicit cap check above). -/
def Erc20State.mint (s : Erc20State) (caller account value : Nat) :
    Except EvmError Erc20State :=
  if caller = s.ownerAddr ∨ (s.authorizedMinter ≠ 0 ∧ caller = s.authorizedMinter) then
    if U256lim ≤ s.totalSupply + value then .error .Overflow
    else if s.totalSupply + value ≤ s.cap then
      if account = 0 then .error .InvalidReceiver
      else
        .ok { s with totalSupply := s.totalSupply + value
                     balances := setMap s.balances account (s.balances account + value) }
    else .error .CapExceeded
  else .error .UnauthorizedMinter

/-- `ERC20Example.setAuthorizedMinter` (`ERC20Example.sol` lines 73–75),
`onlyOwner`. -/
def Erc20State.setAuthorizedMinter (s : Erc20State) (caller minter : Nat) :
    Except EvmError Erc20State :=
  if caller ≠ s.ownerAddr then .error .NotOwner
  else .ok { s with authorizedMinter := minter }

/-- `VrfConsumer.mintDistributionReward` (`VrfConsumer.sol` lines 182–189):
requires a configured token address, then calls `mint` on the ledger with the
lottery contract as `msg.sender`. -/
def mintDistributionReward (w : World) (recipient amount : Nat) :
    Except EvmError World :=
  if w.vrf.erc20TokenAddress = 0 then .error .TokenNotConfigured
  else
    match w.token.mint w.vrfAddr recipient amount with
    | .error e => .error e
    | .ok t => .ok { w with token := t }

/-- `VrfConsumer.decideWinner` (`VrfConsumer.sol` lines 196–215): no winner
when `participants` or `randomWords` is empty; otherwise the participant at
index `randomWords[0] % participants.length`; for a nonzero winner the reward
`lotteryEntryFee * len` (checked multiplication) is minted after clearing
`participants`. -/
def decideWinner (w : World) (randomWords : List Nat) :
    Except EvmError (World × Nat) :=
  if w.vrf.participants.length = 0 ∨ randomWords.length = 0 then .ok (w, 0)
  else
    let len := w.vrf.participants.length
    let idx := randomWords.headD 0 % len
    let winner := w.vrf.participants.getD idx 0
    if winner ≠ 0 then
      if U256lim ≤ w.vrf.lotteryEntryFee * len then .error .Overflow
      else
        let reward := w.vrf.lotteryEntryFee * len
        let w2 : World := { w with vrf := { w.vrf with participants := [] } }
        match mintDistributionReward w2 winner reward with
        | .error e => .error e
        | .ok w3 => .ok (w3, winner)
    else .ok (w, winner)

/-- `VrfConsumer.fulfillRandomWords` (`VrfConsumer.sol` lines 222–252):
requires the request to exist (`sRequestsPaid[requestId] > 0`), marks it
fulfilled, stores the first random word (when present), updates
`lastFulfilledId`/`lastFulfilledValue`, closes the entry window, runs
`decideWinner`, records `lastWinner`, and reopens the entry window. -/
def fulfillRandomWords (w : World) (requestId : Nat) (randomWords : List Nat) :
    Except EvmError World :=
  if w.vrf.sRequestsPaid requestId = 0 then .error .RequestNotFound
  else
    let fulfilledValue := if 0 < randomWords.length then randomWords.headD 0 else 0
    let vrf1 := { w.vrf with
      sRequestsFulfilled := setBoolMap w.vrf.sRequestsFulfilled requestId true }
    let vrf2 := if 0 < randomWords.length then
        { vrf1 with sRequestsValue := setMap vrf1.sRequestsValue requestId (randomWords.headD 0) }
      else vrf1
    let vrf3 := { vrf2 with
      lastFulfilledId := requestId
      lastFulfilledValue := fulfilledValue
      acceptingParticipants := false }
    match decideWinner { w with vrf := vrf3 } randomWords with
    | .error e => .error e
    | .ok (w4, winner) =>
        .ok { w4 with vrf := { w4.vrf with
                lastWinner := winner
                acceptingParticipants := true } }

/-- `VrfConsumer.rawFulfillRandomWords` (`VrfConsumer.sol` lines 259–268):
the oracle callback; any caller other than the configured wrapper is rejected
with `OnlyVRFWrapperCanFulfill(msg.sender, iVrfV2PlusWrapper)`. -/
def rawFulfillRandomWords (w : World) (caller requestId : Nat)
    (randomWords : List Nat) : Except EvmError World :=
  if caller ≠ w.vrf.iVrfV2PlusWrapper then
    .error (.OnlyVRFWrapperCanFulfill caller w.vrf.iVrfV2PlusWrapper)
  else fulfillRandomWords w requestId randomWords

/-- `VrfConsumer.participateInLottery` (`VrfConsumer.sol` lines 349–366):
entry window open, caller not yet a participant, fee configured, exact fee
attached; the only effect is appending the caller to `participants`. -/
def participateInLottery (s : VrfState) (caller value : Nat) :
    Except EvmError VrfState :=
  if ¬ s.acceptingParticipants then .error .NotAcceptingParticipants
  else if caller ∈ s.participants then .error .AlreadyParticipating
  else if s.lotteryEntryFee = 0 then .error .FeeNotConfigured
  else if value ≠ s.lotteryEntryFee then .error .WrongAmount
  else .ok { s with participants := s.participants ++ [caller] }

/-- The state recording shared by every rendition of `requestRandomWords`
once its interval gate has passed (`VrfConsumer.sol` lines 154–174):
`lastRequestTimestamp := now`, request the oracle (mock wrapper: next id at
the quoted price), record the request as unfulfilled with its paid amount,
append the id and update `lastRequestId`. -/
def recordDrawRequest (s : VrfState) (om : OracleModel) (now : Nat) :
    VrfState × Nat :=
  let s1 := { s with lastRequestTimestamp := now }
  let rid := om.nextRequestId
  ({ s1 with
      sRequestsFulfilled := setBoolMap s1.sRequestsFulfilled rid false
      sRequestsPaid := setMap s1.sRequestsPaid rid om.price
      requestIds := s1.requestIds ++ [rid]
      lastRequestId := rid }, rid)

/-- `VrfConsumer.requestRandomWords` (`VrfConsumer.sol` lines 136–175): the
gate is `block.timestamp >= lastRequestTimestamp + lotteryIntervalHours * 3600`
(both the multiplication and the addition are checked arithmetic), with **no**
special case for `lastRequestTimestamp == 0`. -/
def requestRandomWords (s : VrfState) (om : OracleModel) (now : Nat) :
    Except EvmError (VrfState × Nat) :=
  if U256lim ≤ s.lotteryIntervalHours * 3600 then .error .Overflow
  else if U256lim ≤ s.lastRequestTimestamp + s.lotteryIntervalHours * 3600 then
    .error .Overflow
  else if now < s.lastRequestTimestamp + s.lotteryIntervalHours * 3600 then
    .error .TooSoonToDraw
  else .ok (recordDrawRequest s om now)

/-- `requestRandomWords` as rendered in `src/unnamed/part_005` (lines
134–166): identical to `requestRandomWords` except that the interval gate is
skipped entirely when `lastRequestTimestamp == 0` ("Allow first call when
lastRequestTimestamp is 0"). -/
def requestRandomWordsP5 (s : VrfState) (om : OracleModel) (now : Nat) :
    Except EvmError (VrfState × Nat) :=
  if 0 < s.lastRequestTimestamp then
    if U256lim ≤ s.lotteryIntervalHours * 3600 then .error .Overflow
    else if U256lim ≤ s.lastRequestTimestamp + s.lotteryIntervalHours * 3600 then
      .error .Overflow
    else if now < s.lastRequestTimestamp + s.lotteryIntervalHours * 3600 then
      .error .TooSoonToDraw
    else .ok (recordDrawRequest s om now)
  else .ok (recordDrawRequest s om now)

/-- `VrfConsumer.setLotteryEntryFee` (`VrfConsumer.sol` lines 374–376),
`onlyOwner`, no other precondition. -/
def setLotteryEntryFee (s : VrfState) (caller fee : Nat) :
    Except EvmError VrfState :=
  if caller ≠ s.ownerAddr then .error .NotOwner
  else .ok { s with lotteryEntryFee := fee }

/-- The pure winner-selection function embedded in `decideWinner`
(`VrfConsumer.sol` lines 199–206): `none` on an empty participant list,
otherwise the participant at index `randomValue % participants.length`. -/
def select (participants : List Nat) (randomValue : Nat) : Option Nat :=
  if participants.length = 0 then none
  else some (participants.getD (randomValue % participants.length) 0)

/-- ABI encoding of a `bool` as one 32-byte big-endian word. -/
def abiEncodeBool (b : Bool) : List Nat :=
  List.replicate 31 0 ++ [if b then 1 else 0]

/-- The 4-byte tag `EXTRA_ARGS_V1_TAG = 0x92fd1338`. -/
def extraArgsV1Tag : List Nat := [0x92, 0xfd, 0x13, 0x38]

/-- `VrfConsumer.getExtraArgsForNativePayment` (`VrfConsumer.sol` lines
423–435): `abi.encodeWithSelector(0x92fd1338, true)`, i.e. the 4-byte tag
followed by the 32-byte ABI encoding of `true` — 36 bytes in total.  The
rendition in `packages/solidity/src/VrfConsumer.sol` (lines 84–88) builds the
same 36 bytes as `abi.encodePacked(bytes4(0x92fd1338), bytes28(0), uint32(1))`. -/
def getExtraArgsForNativePayment : List Nat :=
  extraArgsV1Tag ++ abiEncodeBool true

/-- `getExtraArgsForNativePayment` as rendered in `src/unnamed/part_005`
(lines 402–427): a 64-byte buffer with the tag at bytes 0–3 and `0x01` at
byte 35, all other bytes zero. -/
def getExtraArgsForNativePayment64 : List Nat :=
  (((((List.replicate 64 0).set 0 0x92).set 1 0xfd).set 2 0x13).set 3 0x38).set 35 1

/-- Overwrite the `sRequestsFulfilled` entry of one request (used to state
that fulfillment never consults that flag). -/
def setRequestFulfilledFlag (w : World) (requestId : Nat) (b : Bool) : World :=
  { w with vrf := { w.vrf with
      sRequestsFulfilled := setBoolMap w.vrf.sRequestsFulfilled requestId b } }

/-- A deployed reward ledger: owner `11`, authorized minter `10` (the lottery
contract), cap `10 ^ 9`, empty ledger. -/
def sampleToken : Erc20State :=
  { ownerAddr := 11
    authorizedMinter := 10
    cap := 10 ^ 9
    totalSupply := 0
    balances := fun _ => 0 }

/-- A mock oracle quoting price `33`, next request id `1`. -/
def om0 : OracleModel := { price := 33, nextRequestId := 1 }

/-- A freshly constructed lottery: wrapper `5`, owner `9`. -/
def sFresh : VrfState := mkVrfConsumer 5 9

/-- A lottery mid-round: two participants have joined. -/
def sRoundOpen : VrfState := { mkVrfConsumer 5 9 with participants := [1, 2] }

/-- A world in which the lottery (address `10`, wrapper `5`, owner `9`) is
wired to `sampleToken` (at address `7`), request `1` is outstanding with paid
amount `99`, and participants `1`, `2`, `3` have joined. -/
def sampleWorld : World :=
  { vrf := { mkVrfConsumer 5 9 with
      erc20TokenAddress := 7
      sRequestsPaid := setMap (fun _ => 0) 1 99
      participants := [1, 2, 3] }
    token := sampleToken
    vrfAddr := 10 }

/-- A world with no recorded randomness request. -/
def worldNoRequest : World :=
  { vrf := mkVrfConsumer 5 9, token := sampleToken, vrfAddr := 10 }

/-- A world in which request `1` (paid `77`) has already been fulfilled and
the participant list is empty. -/
def worldAlreadyFulfilled : World :=
  { vrf := { mkVrfConsumer 5 9 with
      sRequestsPaid := setMap (fun _ => 0) 1 77
      sRequestsFulfilled := setBoolMap (fun _ => false) 1 true }
    token := sampleToken
    vrfAddr := 10 }

/-- Re-updating a `bool` storage slot overwrites the previous update. -/
theorem setBoolMap_setBoolMap (m : Nat → Bool) (k : Nat) (b c : Bool) :
    setBoolMap (setBoolMap m k b) k c = setBoolMap m k c := by
  funext x
  simp only [setBoolMap]
  split <;> rfl

/-- C1: any caller other than the configured VRF wrapper is rejected by
`rawFulfillRandomWords` with `OnlyVRFWrapperCanFulfill(have, want)` (the
spec's `UnauthorizedOracleCaller(have, want)`); the `.error` result models the
full revert, so participants, balances, fulfilled flags,
`lastFulfilledId`/`lastFulfilledValue` and `acceptingParticipants` are all
unchanged. -/
theorem c1_oracle_spoofing_rejected (w : World) (caller requestId : Nat)
    (randomWords : List Nat) (h : caller ≠ w.vrf.iVrfV2PlusWrapper) :
    rawFulfillRandomWords w caller requestId randomWords =
      .error (.OnlyVRFWrapperCanFulfill caller w.vrf.iVrfV2PlusWrapper) := by
  simp [rawFulfillRandomWords, h]

/-- Witness for C1: caller `7` is not the wrapper `5`, and its fulfillment
attempt reverts with the have/want error. -/
theorem c1_oracle_spoofing_rejected_witness :
    rawFulfillRandomWords sampleWorld 7 1 [3] =
      .error (.OnlyVRFWrapperCanFulfill 7 sampleWorld.vrf.iVrfV2PlusWrapper) :=
  c1_oracle_spoofing_rejected sampleWorld 7 1 [3] (by decide)

/-- C6: `participateInLottery` succeeds exactly when the entry window is
open, the caller is not yet a participant, the fee is configured and the
attached value equals it exactly; its only effect is appending the caller;
each failing precondition yields its matching error (checked in the source's
order: window, duplicate, fee configured, amount). -/
theorem c6_participate_gate (s : VrfState) (caller value : Nat) :
    (¬ s.acceptingParticipants →
      participateInLottery s caller value = .error .NotAcceptingParticipants) ∧
    (s.acceptingParticipants → caller ∈ s.participants →
      participateInLottery s caller value = .error .AlreadyParticipating) ∧
    (s.acceptingParticipants → caller ∉ s.participants → s.lotteryEntryFee = 0 →
      participateInLottery s caller value = .error .FeeNotConfigured) ∧
    (s.acceptingParticipants → caller ∉ s.participants → 0 < s.lotteryEntryFee →
      value ≠ s.lotteryEntryFee →
      participateInLottery s caller value = .error .WrongAmount) ∧
    (s.acceptingParticipants → caller ∉ s.participants → 0 < s.lotteryEntryFee →
      value = s.lotteryEntryFee →
      participateInLottery s caller value =
        .ok { s with participants := s.participants ++ [caller] }) ∧
    ((participateInLottery s caller value).isOk = true ↔
      s.acceptingParticipants ∧ caller ∉ s.participants ∧
        0 < s.lotteryEntryFee ∧ value = s.lotteryEntryFee) := by
  refine ⟨?_, ?_, ?_, ?_, ?_, ?_⟩
  · intro h; simp [participateInLottery, h]
  · intro h1 h2; simp [participateInLottery, h1, h2]
  · intro h1 h2 h3; simp [participateInLottery, h1, h2, h3]
  · intro h1 h2 h3 h4
    simp [participateInLottery, h1, h2, Nat.pos_iff_ne_zero.mp h3, h4]
  · intro h1 h2 h3 h4
    simp [participateInLottery, h1, h2, Nat.pos_iff_ne_zero.mp h3, h4]
  · by_cases h1 : s.acceptingParticipants <;>
      by_cases h2 : caller ∈ s.participants <;>
      by_cases h3 : s.lotteryEntryFee = 0 <;>
      by_cases h4 : value = s.lotteryEntryFee <;>
      simp [participateInLottery, h1, h2, h3, h4, Except.isOk, Except.toBool,
        Nat.pos_iff_ne_zero]

/-- Witness for C6: in the fresh lottery, caller 4 paying the exact fee
500000 is appended as the sole participant. -/
theorem c6_participate_gate_witness :
    participateInLottery sFresh 4 500000 =
      .ok { sFresh with participants := [4] } :=
  (c6_participate_gate sFresh 4 500000).2.2.2.2.1 (by decide) (by decide)
    (by decide) (by decide)

/-- C7: winner selection is the pure `select`: `none` on the empty list for
every random value, `participants[randomValue % length]` otherwise;
`select [A, B, C] 7 = B` (addresses `A, B, C = 1, 2, 3`); and `decideWinner`
agrees with `select` — with an empty participant list it returns no winner,
changes nothing and mints nothing, and any winner it returns is exactly the
`select` result. -/
theorem c7_selection_correct :
    (∀ randomValue : Nat, select [] randomValue = none) ∧
    (∀ (ps : List Nat) (randomValue : Nat), 0 < ps.length →
      select ps randomValue = some (ps.getD (randomValue % ps.length) 0)) ∧
    select [1, 2, 3] 7 = some 2 ∧
    (∀ (w : World) (r : Nat) (rest : List Nat), w.vrf.participants = [] →
      decideWinner w (r :: rest) = .ok (w, 0)) ∧
    (∀ (w w2 : World) (r winner : Nat) (rest : List Nat),
      decideWinner w (r :: rest) = .ok (w2, winner) →
      winner = (select w.vrf.participants r).getD 0) := by
  refine ⟨fun _ => rfl, ?_, by decide, ?_, ?_⟩
  · intro ps randomValue h
    simp [select, Nat.pos_iff_ne_zero.mp h]
  · intro w r rest h
    simp [decideWinner, h]
  · intro w w2 r winner rest h
    unfold decideWinner at h
    cases hps : w.vrf.participants with
    | nil =>
        rw [hps] at h
        rw [if_pos (Or.inl List.length_nil)] at h
        rw [Except.ok.injEq, Prod.mk.injEq] at h
        simp [select, ← h.2]
    | cons a as =>
        rw [hps] at h
        rw [if_neg (by simp)] at h
        simp only [List.headD_cons] at h
        have hsel : select (a :: as) r =
            some ((a :: as).getD (r % (a :: as).length) 0) := by
          unfold select
          rw [if_neg (by simp)]
        by_cases hw : (a :: as).getD (r % (a :: as).length) 0 = 0
        · rw [if_neg (not_not_intro hw)] at h
          rw [Except.ok.injEq, Prod.mk.injEq] at h
          rw [hsel, Option.getD_some]
          exact h.2.symm
        · rw [if_pos hw] at h
          split at h
          · simp at h
          · split at h
            · simp at h
            · rw [Except.ok.injEq, Prod.mk.injEq] at h
              rw [hsel, Option.getD_some]
              exact h.2.symm

/-- Witness for C7: the embedded hypotheses discharged at the spec's own
example — selection over `[1, 2, 3]` with random value 7 picks index 1, and
an empty round yields no winner with the world untouched. -/
theorem c7_selection_correct_witness :
    select [1, 2, 3] 7 = some ([1, 2, 3].getD (7 % [1, 2, 3].length) 0) ∧
    decideWinner worldNoRequest (7 :: []) = .ok (worldNoRequest, 0) :=
  ⟨c7_selection_correct.2.1 [1, 2, 3] 7 (by decide),
   c7_selection_correct.2.2.2.1 worldNoRequest 7 [] (by decide)⟩

/-- Counterexample for C8: the extraArgs payload built by
`getExtraArgsForNativePayment` in `contracts/VrfConsumer.sol`
(`abi.encodeWithSelector(0x92fd1338, true)`) is 36 bytes long, not 64. -/
theorem c8_counterexample : ¬ getExtraArgsForNativePayment.length = 64 := by
  decide

/-- C8 (amended): in the `contracts/VrfConsumer.sol` and
`packages/solidity/src/VrfConsumer.sol` renditions the extraArgs payload is
exactly 36 bytes — bytes 0–3 the constant tag `0x92fd1338`, bytes 32–35 the
big-endian 4-byte value 1, every other byte zero (a 4-byte selector followed
by the 32-byte ABI encoding of `true`); only the `src/unnamed/part_005`
rendition pads the same tag and flag layout to 64 bytes. -/
theorem c8_extra_args_layout :
    getExtraArgsForNativePayment =
      [0x92, 0xfd, 0x13, 0x38] ++ List.replicate 28 0 ++ [0, 0, 0, 1] ∧
    getExtraArgsForNativePayment.length = 36 ∧
    getExtraArgsForNativePayment64 =
      [0x92, 0xfd, 0x13, 0x38] ++ List.replicate 28 0 ++ [0, 0, 0, 1] ++
        List.replicate 28 0 ∧
    getExtraArgsForNativePayment64.length = 64 := by
  refine ⟨by decide, by decide, by decide, by decide⟩

/-- Counterexample for C9: with a round open (two participants joined and no
fulfillment yet), the owner's `setLotteryEntryFee` call succeeds and changes
`entryFee` from 500000 to 777 — so an operation does change `entryFee` while
a round is open. -/
theorem c9_counterexample :
    sRoundOpen.participants ≠ [] ∧
    setLotteryEntryFee sRoundOpen 9 777 =
      .ok { sRoundOpen with lotteryEntryFee := 777 } ∧
    ¬ (777 : Nat) = sRoundOpen.lotteryEntryFee :=
  ⟨by decide, rfl, by decide⟩

/-- C9 (amended): `setLotteryEntryFee` is owner-gated but not round-gated —
the owner can change `entryFee` at any time, including while `participants`
is non-empty, and a non-owner always fails with the `onlyOwner` error; the
reward later minted is computed from the `entryFee` current at fulfillment
time, not the fee each participant paid. -/
theorem c9_fee_adjustable_mid_round (s : VrfState) (caller fee : Nat) :
    (caller = s.ownerAddr →
      setLotteryEntryFee s caller fee = .ok { s with lotteryEntryFee := fee }) ∧
    (caller ≠ s.ownerAddr →
      setLotteryEntryFee s caller fee = .error .NotOwner) := by
  constructor <;> intro h <;> simp [setLotteryEntryFee, h]

/-- Witness for C9 (amended): the owner (address 9) changes the fee to 777
mid-round. -/
theorem c9_fee_adjustable_mid_round_witness :
    setLotteryEntryFee sRoundOpen 9 777 =
      .ok { sRoundOpen with lotteryEntryFee := 777 } :=
  (c9_fee_adjustable_mid_round sRoundOpen 9 777).1 (by decide)

/-- Counterexample for C5: on the freshly constructed lottery
(`lastRequestTimestamp = 0`, interval 4 h = 14400 s), `requestRandomWords`
at `block.timestamp = 100` reverts with TooSoonToDraw — `contracts/
VrfConsumer.sol` has no `lastDrawTimestamp == 0` special case, so the very
first draw request is *not* always allowed by the interval gate. -/
theorem c5_counterexample :
    sFresh.lastRequestTimestamp = 0 ∧
    requestRandomWords sFresh om0 100 = .error .TooSoonToDraw :=
  ⟨rfl, rfl⟩

/-- C5 (amended): in `contracts/VrfConsumer.sol` the gate of
`requestRandomWords` is exactly `now ≥ lastDrawTimestamp + intervalSeconds`
(`intervalSeconds = lotteryIntervalHours × 3600`), with no special case for
`lastDrawTimestamp == 0` — the first draw succeeds only when
`now ≥ intervalSeconds` (true for every realistic timestamp); a gated call
fails with TooSoonToDraw, and two calls separated by less than
`intervalSeconds` fail the second time.  The `src/unnamed/part_005` rendition
additionally allows the first draw unconditionally, matching the claim as
originally stated. -/
theorem c5_interval_gate (s : VrfState) (om : OracleModel) (now : Nat)
    (hmul : s.lotteryIntervalHours * 3600 < U256lim)
    (hadd : s.lastRequestTimestamp + s.lotteryIntervalHours * 3600 < U256lim)
    (hadd2 : now + s.lotteryIntervalHours * 3600 < U256lim) :
    ((requestRandomWords s om now).isOk = true ↔
      s.lastRequestTimestamp + s.lotteryIntervalHours * 3600 ≤ now) ∧
    (now < s.lastRequestTimestamp + s.lotteryIntervalHours * 3600 →
      requestRandomWords s om now = .error .TooSoonToDraw) ∧
    (∀ s2 rid, requestRandomWords s om now = .ok (s2, rid) →
      ∀ (om2 : OracleModel) (now2 : Nat),
        now2 < now + s.lotteryIntervalHours * 3600 →
        requestRandomWords s2 om2 now2 = .error .TooSoonToDraw) ∧
    ((requestRandomWordsP5 s om now).isOk = true ↔
      (s.lastRequestTimestamp = 0 ∨
        s.lastRequestTimestamp + s.lotteryIntervalHours * 3600 ≤ now)) ∧
    (s.lastRequestTimestamp = 0 →
      ((requestRandomWords s om now).isOk = true ↔
        s.lotteryIntervalHours * 3600 ≤ now)) := by
  have hm : ¬ U256lim ≤ s.lotteryIntervalHours * 3600 := Nat.not_le.mpr hmul
  have ha : ¬ U256lim ≤ s.lastRequestTimestamp + s.lotteryIntervalHours * 3600 :=
    Nat.not_le.mpr hadd
  refine ⟨?_, ?_, ?_, ?_, ?_⟩
  · by_cases hg : now < s.lastRequestTimestamp + s.lotteryIntervalHours * 3600 <;>
      simp [requestRandomWords, hm, ha, hg, Except.isOk, Except.toBool, Nat.not_lt, Nat.lt_of_not_le] <;>
      omega
  · intro hg
    simp [requestRandomWords, hm, ha, hg]
  · intro s2 rid h om2 now2 hlt
    have hg : ¬ now < s.lastRequestTimestamp + s.lotteryIntervalHours * 3600 := by
      by_contra hc
      simp [requestRandomWords, hm, ha, hc] at h
    simp only [requestRandomWords, if_neg hm, if_neg ha, if_neg hg,
      Except.ok.injEq, Prod.mk.injEq] at h
    have hs2 : s2 = (recordDrawRequest s om now).1 := by rw [h]
    have hts : s2.lastRequestTimestamp = now := by
      rw [hs2]; rfl
    have hhrs : s2.lotteryIntervalHours = s.lotteryIntervalHours := by
      rw [hs2]; rfl
    have hg2 : now2 < s2.lastRequestTimestamp + s2.lotteryIntervalHours * 3600 := by
      rw [hts, hhrs]; exact hlt
    have ha2 : ¬ U256lim ≤ s2.lastRequestTimestamp + s2.lotteryIntervalHours * 3600 := by
      rw [hts, hhrs]; exact Nat.not_le.mpr hadd2
    have hm2 : ¬ U256lim ≤ s2.lotteryIntervalHours * 3600 := by
      rw [hhrs]; exact hm
    simp [requestRandomWords, hm2, ha2, hg2]
  · by_cases hz : 0 < s.lastRequestTimestamp
    · by_cases hg : now < s.lastRequestTimestamp + s.lotteryIntervalHours * 3600 <;>
        simp [requestRandomWordsP5, hz, hm, ha, hg, Except.isOk, Except.toBool] <;>
        omega
    · simp [requestRandomWordsP5, hz, Except.isOk, Except.toBool]
      omega
  · intro hz
    by_cases hg : now < s.lotteryIntervalHours * 3600
    · have hg2 : now < s.lastRequestTimestamp + s.lotteryIntervalHours * 3600 := by
        omega
      simp [requestRandomWords, hm, ha, hg2, Except.isOk, Except.toBool] <;> omega
    · have hg2 : ¬ now < s.lastRequestTimestamp + s.lotteryIntervalHours * 3600 := by
        omega
      simp [requestRandomWords, hm, ha, hg2, Except.isOk, Except.toBool] <;> omega

/-- Witness for C5 (amended): the fresh lottery at timestamp 100 is gated
(100 < 14400) and reverts with TooSoonToDraw. -/
theorem c5_interval_gate_witness :
    requestRandomWords sFresh om0 100 = .error .TooSoonToDraw :=
  (c5_interval_gate sFresh om0 100 (by decide) (by decide) (by decide)).2.1
    (by decide)

/-- Counterexample for C2: request 1 is recorded (paid 77) and already marked
fulfilled, yet a second oracle fulfillment call for it succeeds —
`fulfillRandomWords` in `contracts/VrfConsumer.sol` never checks the
`sRequestsFulfilled` flag and defines no AlreadyFulfilled error. -/
theorem c2_counterexample :
    worldAlreadyFulfilled.vrf.sRequestsFulfilled 1 = true ∧
    0 < worldAlreadyFulfilled.vrf.sRequestsPaid 1 ∧
    (rawFulfillRandomWords worldAlreadyFulfilled 5 1 [7]).isOk = true := by
  refine ⟨by decide, by decide, by decide⟩

/-- C2 (amended): `fulfillRandomness` succeeds only when the requestId exists
in the tracker (`sRequestsPaid[requestId] > 0`); an unknown id fails with
RequestNotFound (full revert, no state change).  The `fulfilled` flag is
never consulted: fulfillment behaves identically whatever that flag's prior
value, so a second call for an already-fulfilled id is *not* rejected — it
runs exactly like a first one (there is no AlreadyFulfilled error). -/
theorem c2_fulfillment_ignores_fulfilled_flag (w : World)
    (requestId : Nat) (randomWords : List Nat) (b : Bool) :
    (w.vrf.sRequestsPaid requestId = 0 →
      fulfillRandomWords w requestId randomWords = .error .RequestNotFound) ∧
    fulfillRandomWords (setRequestFulfilledFlag w requestId b) requestId
        randomWords =
      fulfillRandomWords w requestId randomWords := by
  constructor
  · intro h
    simp [fulfillRandomWords, h]
  · unfold fulfillRandomWords setRequestFulfilledFlag
    simp only [setBoolMap_setBoolMap]

/-- Witness for C2 (amended): an unknown id (3) reverts with RequestNotFound
on the fresh world, and re-fulfilling the already-fulfilled request 1 behaves
exactly as if the flag had never been set. -/
theorem c2_fulfillment_ignores_fulfilled_flag_witness :
    fulfillRandomWords worldNoRequest 3 [5] = .error .RequestNotFound ∧
    fulfillRandomWords (setRequestFulfilledFlag worldAlreadyFulfilled 1 false)
        1 [7] =
      fulfillRandomWords worldAlreadyFulfilled 1 [7] :=
  ⟨(c2_fulfillment_ignores_fulfilled_flag worldNoRequest 3 [5] true).1
      (by decide),
   (c2_fulfillment_ignores_fulfilled_flag worldAlreadyFulfilled 1 [7] false).2⟩

/-- C10: an oracle fulfillment of an existing request with an *empty*
random-values array still succeeds: the request is marked fulfilled,
`sRequestsValue` stays untouched (the stored random value remains unset),
`lastFulfilledValue` is set to 0, the winner is `address(0)` (none), no mint
happens (the ledger is untouched), `participants` is left as it was (not
cleared), and `acceptingParticipants` is true afterwards. -/
theorem c10_empty_random_words (w : World) (requestId : Nat)
    (hpaid : 0 < w.vrf.sRequestsPaid requestId) :
    rawFulfillRandomWords w w.vrf.iVrfV2PlusWrapper requestId [] =
      .ok { w with vrf := { w.vrf with
              sRequestsFulfilled :=
                setBoolMap w.vrf.sRequestsFulfilled requestId true
              lastFulfilledId := requestId
              lastFulfilledValue := 0
              lastWinner := 0
              acceptingParticipants := true } } := by
  have hpaid2 : ¬ w.vrf.sRequestsPaid requestId = 0 :=
    Nat.pos_iff_ne_zero.mp hpaid
  simp [rawFulfillRandomWords, fulfillRandomWords, decideWinner, hpaid2]

/-- Witness for C10: fulfilling request 1 of `sampleWorld` with an empty
random-values array marks it fulfilled and selects no winner. -/
theorem c10_empty_random_words_witness :
    rawFulfillRandomWords sampleWorld sampleWorld.vrf.iVrfV2PlusWrapper 1 [] =
      .ok { sampleWorld with vrf := { sampleWorld.vrf with
              sRequestsFulfilled :=
                setBoolMap sampleWorld.vrf.sRequestsFulfilled 1 true
              lastFulfilledId := 1
              lastFulfilledValue := 0
              lastWinner := 0
              acceptingParticipants := true } } :=
  c10_empty_random_words sampleWorld 1 (by decide)

/-- Counterexample for C4: the authorized minter (address 10) minting 100
units to recipient `address(0)` has room under the cap — the claim's iff
predicts success — yet the contract reverts with the inherited
`ERC20InvalidReceiver(address(0))` from OpenZeppelin's `_mint`. -/
theorem c4_counterexample :
    ((10 : Nat) = sampleToken.ownerAddr ∨
      (sampleToken.authorizedMinter ≠ 0 ∧
        (10 : Nat) = sampleToken.authorizedMinter)) ∧
    sampleToken.totalSupply + 100 ≤ sampleToken.cap ∧
    sampleToken.mint 10 0 100 = .error .InvalidReceiver := by
  refine ⟨by decide, by decide, rfl⟩

/-- C4 (amended): `RewardLedger.mint` succeeds iff the caller is authorized
(ledger owner, or the configured — nonzero — `authorizedMinter`),
`totalSupply + amount ≤ cap`, and the recipient is not `address(0)`; on
success the recipient's balance and `totalSupply` both grow by the amount
and no other balance changes; an unauthorized caller fails with the
unauthorized-minter error, an authorized over-cap mint (within `uint256`
range) fails with CapExceeded, and an authorized under-cap mint to
`address(0)` fails with the inherited `ERC20InvalidReceiver` — each failure
being a full revert with no partial mint. -/
theorem c4_mint_gate (s : Erc20State) (caller account value : Nat)
    (hcap : s.cap < U256lim) :
    ((s.mint caller account value).isOk = true ↔
      ((caller = s.ownerAddr ∨
          (s.authorizedMinter ≠ 0 ∧ caller = s.authorizedMinter)) ∧
        s.totalSupply + value ≤ s.cap ∧ ¬ account = 0)) ∧
    (¬ (caller = s.ownerAddr ∨
          (s.authorizedMinter ≠ 0 ∧ caller = s.authorizedMinter)) →
      s.mint caller account value = .error .UnauthorizedMinter) ∧
    ((caller = s.ownerAddr ∨
        (s.authorizedMinter ≠ 0 ∧ caller = s.authorizedMinter)) →
      s.cap < s.totalSupply + value → s.totalSupply + value < U256lim →
      s.mint caller account value = .error .CapExceeded) ∧
    ((caller = s.ownerAddr ∨
        (s.authorizedMinter ≠ 0 ∧ caller = s.authorizedMinter)) →
      s.totalSupply + value ≤ s.cap → account = 0 →
      s.mint caller account value = .error .InvalidReceiver) ∧
    ((caller = s.ownerAddr ∨
        (s.authorizedMinter ≠ 0 ∧ caller = s.authorizedMinter)) →
      s.totalSupply + value ≤ s.cap → ¬ account = 0 →
      s.mint caller account value =
        .ok { s with
          totalSupply := s.totalSupply + value
          balances := setMap s.balances account (s.balances account + value) }) ∧
    (∀ a, ¬ a = account →
      setMap s.balances account (s.balances account + value) a = s.balances a) ∧
    setMap s.balances account (s.balances account + value) account =
      s.balances account + value := by
  refine ⟨?_, ?_, ?_, ?_, ?_, ?_, ?_⟩
  · by_cases hauth : caller = s.ownerAddr ∨
        (s.authorizedMinter ≠ 0 ∧ caller = s.authorizedMinter)
    · by_cases hle : s.totalSupply + value ≤ s.cap
      · have hov : ¬ U256lim ≤ s.totalSupply + value := by omega
        by_cases hacct : account = 0 <;>
          simp [Erc20State.mint, hauth, hle, hov, hacct, Except.isOk,
            Except.toBool]
      · by_cases hov : U256lim ≤ s.totalSupply + value <;>
          simp [Erc20State.mint, hauth, hle, hov, Except.isOk, Except.toBool]
    · simp [Erc20State.mint, hauth, Except.isOk, Except.toBool]
  · intro hauth
    simp [Erc20State.mint, hauth]
  · intro hauth hlt hov
    have h1 : ¬ U256lim ≤ s.totalSupply + value := by omega
    have h2 : ¬ s.totalSupply + value ≤ s.cap := by omega
    simp [Erc20State.mint, hauth, h1, h2]
  · intro hauth hle hacct
    have h1 : ¬ U256lim ≤ s.totalSupply + value := by omega
    simp [Erc20State.mint, hauth, h1, hle, hacct]
  · intro hauth hle hacct
    have h1 : ¬ U256lim ≤ s.totalSupply + value := by omega
    simp [Erc20State.mint, hauth, h1, hle, hacct]
  · intro a ha
    simp [setMap, ha]
  · simp [setMap]

/-- Witness for C4 (amended): the authorized minter (address 10) mints 100
units to the nonzero address 2 on the fresh ledger. -/
theorem c4_mint_gate_witness :
    sampleToken.mint 10 2 100 =
      .ok { sampleToken with
        totalSupply := sampleToken.totalSupply + 100
        balances := setMap sampleToken.balances 2 (sampleToken.balances 2 + 100) } :=
  (c4_mint_gate sampleToken 10 2 100 (by decide)).2.2.2.2.1 (by decide)
    (by decide) (by decide)

/-- C3: a successful oracle fulfillment of an existing request with at least
one random word, `n ≥ 1` participants (all genuine, nonzero addresses — the
selected winner in particular), a configured ledger, an authorized lottery
and room under the cap, credits exactly one participant — the selected
winner — with `entryFee × n`, grows `totalSupply` by the same amount,
changes no other balance, empties `participants`, and leaves
`acceptingParticipants` true. -/
theorem c3_reward_conservation (w : World) (requestId r : Nat) (rest : List Nat)
    (hpaid : 0 < w.vrf.sRequestsPaid requestId)
    (hn : 0 < w.vrf.participants.length)
    (hwz : w.vrf.participants.getD (r % w.vrf.participants.length) 0 ≠ 0)
    (htok : w.vrf.erc20TokenAddress ≠ 0)
    (hauth : w.vrfAddr = w.token.ownerAddr ∨
      (w.token.authorizedMinter ≠ 0 ∧ w.vrfAddr = w.token.authorizedMinter))
    (hfit : w.token.totalSupply +
        w.vrf.lotteryEntryFee * w.vrf.participants.length ≤ w.token.cap)
    (hcap : w.token.cap < U256lim) :
    ∃ (w2 : World) (winner : Nat),
      rawFulfillRandomWords w w.vrf.iVrfV2PlusWrapper requestId (r :: rest) =
        .ok w2 ∧
      winner ∈ w.vrf.participants ∧
      w2.token.balances winner =
        w.token.balances winner +
          w.vrf.lotteryEntryFee * w.vrf.participants.length ∧
      (∀ a, ¬ a = winner → w2.token.balances a = w.token.balances a) ∧
      w2.token.totalSupply =
        w.token.totalSupply +
          w.vrf.lotteryEntryFee * w.vrf.participants.length ∧
      w2.vrf.participants = [] ∧
      w2.vrf.acceptingParticipants = true := by
  have hpaid2 : ¬ w.vrf.sRequestsPaid requestId = 0 :=
    Nat.pos_iff_ne_zero.mp hpaid
  have hlen : ¬ w.vrf.participants.length = 0 := Nat.pos_iff_ne_zero.mp hn
  have hov1 : ¬ U256lim ≤ w.vrf.lotteryEntryFee * w.vrf.participants.length := by
    omega
  have hov2 : ¬ U256lim ≤ w.token.totalSupply +
      w.vrf.lotteryEntryFee * w.vrf.participants.length := by
    omega
  have hmem : w.vrf.participants.getD (r % w.vrf.participants.length) 0 ∈
      w.vrf.participants := by
    rw [List.getD_eq_getElem _ _ (Nat.mod_lt r hn)]
    exact List.getElem_mem _
  refine ⟨{ vrf := { w.vrf with
          sRequestsFulfilled := setBoolMap w.vrf.sRequestsFulfilled requestId true,
          sRequestsValue := setMap w.vrf.sRequestsValue requestId r,
          lastFulfilledId := requestId,
          lastFulfilledValue := r,
          lastWinner := w.vrf.participants.getD (r % w.vrf.participants.length) 0,
          acceptingParticipants := true,
          participants := [] },
            token := { w.token with
              totalSupply := w.token.totalSupply +
                w.vrf.lotteryEntryFee * w.vrf.participants.length,
              balances := setMap w.token.balances
                (w.vrf.participants.getD (r % w.vrf.participants.length) 0)
                (w.token.balances
                    (w.vrf.participants.getD (r % w.vrf.participants.length) 0) +
                  w.vrf.lotteryEntryFee * w.vrf.participants.length) },
            vrfAddr := w.vrfAddr },
    w.vrf.participants.getD (r % w.vrf.participants.length) 0,
    ?_, hmem, by simp [setMap], ?_, rfl, rfl, rfl⟩
  · have hwz2 : ¬ w.vrf.participants[r % w.vrf.participants.length]?.getD 0 = 0 := by
      simpa using hwz
    simp [rawFulfillRandomWords, fulfillRandomWords, decideWinner,
      mintDistributionReward, Erc20State.mint, hpaid2, hlen, hwz2, htok,
      hauth, hov1, hov2, hfit]
  · intro a ha
    have ha2 : ¬ a = w.vrf.participants[r % w.vrf.participants.length]?.getD 0 := by
      simpa using ha
    simp [setMap, ha2]

/-- Witness for C3: in `sampleWorld` (participants `[1, 2, 3]`, fee 500000,
request 1 outstanding), the oracle fulfillment with random word 7 rewards
exactly one participant with 1500000, raises `totalSupply` accordingly,
clears the round and reopens participation. -/
theorem c3_reward_conservation_witness :
    ∃ (w2 : World) (winner : Nat),
      rawFulfillRandomWords sampleWorld sampleWorld.vrf.iVrfV2PlusWrapper 1
          (7 :: []) =
        .ok w2 ∧
      winner ∈ sampleWorld.vrf.participants ∧
      w2.token.balances winner =
        sampleWorld.token.balances winner +
          sampleWorld.vrf.lotteryEntryFee *
            sampleWorld.vrf.participants.length ∧
      (∀ a, ¬ a = winner →
        w2.token.balances a = sampleWorld.token.balances a) ∧
      w2.token.totalSupply =
        sampleWorld.token.totalSupply +
          sampleWorld.vrf.lotteryEntryFee *
            sampleWorld.vrf.participants.length ∧
      w2.vrf.participants = [] ∧
      w2.vrf.acceptingParticipants = true :=
  c3_reward_conservation sampleWorld 1 7 [] (by decide) (by decide) (by decide)
    (by decide) (by decide) (by decide) (by decide)
